import Mathlib

/-!
Shallow embedding of the call dialogue orchestrator in `app.py`
(repository `pruthviraj-chavan/groqbot`).

Modelling conventions:
- Python dicts keyed by caller id (`conversation_contexts`, `call_states`,
  `ResponseManager.active_responses`) are association lists
  `List (String × α)` with first-match lookup; `update` replaces the first
  binding or appends, `removeKey` deletes every binding of the key
  (Python dict keys are unique, so this coincides with `del`).
- Python strings are Lean `String`; the character-level operations
  `str.strip()`, `str.lower()`, `phrase in text` and slicing `s[:150]`
  are modelled char-by-char (`pyStrip`, `pyLower`, `strContains`, `pyTake`);
  `len` is the character count `pyLen`.  `str.lower()` only affects ASCII
  letters here, which matches every phrase list in the source.
- The recognition confidence is a rational number; the float literal `0.3`
  of the source becomes the rational `mkRat 3 10`.
- The Groq chat-completion call is the external Reply Generator: it is a
  parameter `llm : Option String`; `none` means the call (or the extraction
  of its message content) raised an exception, `some content` is the
  returned message content.  `hasClient : Bool` models
  `GROQ_API_KEY and client` being available.
- Wall-clock fields of `AdvancedCallState` (`start_time`, `last_activity`,
  `response_start_time`) and the fields never read on the modelled paths
  (`interruption_buffer`, `quick_interruption_mode`, `conversation_flow`)
  are omitted: no claim mentions real time.
-/

namespace App

/-- First-match lookup in an association list (Python `d.get(k)`). -/
def lookup {α : Type} : List (String × α) → String → Option α
  | [], _ => none
  | (k', v) :: t, k => if k' = k then some v else lookup t k

/-- Replace the first binding of the key, or append one (Python `d[k] = v`). -/
def update {α : Type} : List (String × α) → String → α → List (String × α)
  | [], k, v => [(k, v)]
  | (k', v') :: t, k, v =>
      if k' = k then (k, v) :: t else (k', v') :: update t k v

/-- Delete every binding of the key (Python `del d[k]`, keys are unique). -/
def removeKey {α : Type} : List (String × α) → String → List (String × α)
  | [], _ => []
  | (k', v) :: t, k =>
      if k' = k then removeKey t k else (k', v) :: removeKey t k

/-- Does the second list occur at the head of the first list. -/
def leadsWith : List Char → List Char → Bool
  | [], _ => true
  | _ :: _, [] => false
  | a :: as, b :: bs => a = b && leadsWith as bs

/-- Does `pat` occur as a contiguous run inside `l`. -/
def containsChars (pat : List Char) : List Char → Bool
  | [] => pat.isEmpty
  | c :: t => leadsWith pat (c :: t) || containsChars pat t

/-- Python `pat in hay` (substring containment). -/
def strContains (hay pat : String) : Bool :=
  containsChars pat.toList hay.toList

/-- Python `str.lower()` (only ASCII letters change; all phrases are ASCII
or Devanagari, which has no case). -/
def pyLower (s : String) : String :=
  String.mk (s.toList.map Char.toLower)

/-- ASCII whitespace stripped by Python `str.strip()`. -/
def isPySpace (c : Char) : Bool :=
  c = ' ' || c = '\t' || c = '\n' || c = '\r' || c = '\x0b' || c = '\x0c'

/-- Python `str.strip()`. -/
def pyStrip (s : String) : String :=
  String.mk (((s.toList.dropWhile isPySpace).reverse.dropWhile isPySpace).reverse)

/-- Python slice `s[:n]` (by characters). -/
def pyTake (s : String) (n : Nat) : String :=
  String.mk (s.toList.take n)

/-- Python `len(s)` (number of characters). -/
def pyLen (s : String) : Nat :=
  s.toList.length

/-- One entry of a conversation context: a dict
`\x7b"role": ..., "content": ...\x7d` of the source. -/
structure Turn where
  role : String
  content : String
deriving Repr, DecidableEq

/-- The fields of `AdvancedCallState.__init__` read or written on the
modelled paths (wall-clock fields and never-read fields omitted). -/
structure AdvancedCallState where
  caller_id : String
  interaction_count : Nat
  user_sentiment : String
  conversation_topic : Option String
  interruption_count : Nat
  silence_count : Nat
  is_bot_speaking : Bool
  current_response_id : Option String
  last_user_input : String
  mid_response_interrupted : Bool
deriving Repr, DecidableEq

/-- `AdvancedCallState.__init__(caller_id)`. -/
def AdvancedCallState.init (caller_id : String) : AdvancedCallState :=
  { caller_id := caller_id
    interaction_count := 0
    user_sentiment := "neutral"
    conversation_topic := none
    interruption_count := 0
    silence_count := 0
    is_bot_speaking := false
    current_response_id := none
    last_user_input := ""
    mid_response_interrupted := false }

/-- The module-level mutable state: the two caller-keyed dicts plus the
`ResponseManager` singleton (`active_responses` dict and
`interrupted_responses` set, the latter as a list queried by membership). -/
structure ServerState where
  conversation_contexts : List (String × List Turn)
  call_states : List (String × AdvancedCallState)
  rm_active : List (String × String)
  rm_interrupted : List String
deriving Repr, DecidableEq

/-- A server with no callers yet. -/
def ServerState.empty : ServerState :=
  { conversation_contexts := []
    call_states := []
    rm_active := []
    rm_interrupted := [] }

/-- The outbound TwiML directive produced by `process_voice`: the low
confidence retry (say "फिर से बोलिए।" plus gather), the silence hangup,
the goodbye hangup, or speak a reply and gather again. -/
inductive Directive
  | repeatPrompt
  | hangupSilence
  | hangupGoodbye
  | speakAndListen (text : String)
deriving Repr, DecidableEq

/-- The `strong_interrupts` phrase list of `detect_interruption_intent`. -/
def strong_interrupts : List String :=
  ["रुको", "रुकिए", "stop", "wait", "hold on", "एक मिनट",
   "नहीं नहीं", "no no", "actually", "लेकिन", "but",
   "सुनिए", "अरे हाँ", "अच्छा सुनिए", "दूसरी बात"]

/-- The `question_interrupts` phrase list of `detect_interruption_intent`. -/
def question_interrupts : List String :=
  ["क्या", "कैसे", "कब", "कहाँ", "कौन", "क्यों",
   "what", "how", "when", "where", "who", "why",
   "बताओ", "समझाओ", "explain", "tell me"]

/-- The `topic_change` phrase list of `detect_interruption_intent`. -/
def topic_change : List String :=
  ["दूसरा सवाल", "another question", "new topic",
   "अलग बात", "different thing", "नई बात"]

/-- The agreement words excluded by the `new_input` check. -/
def agreement_words : List String :=
  ["हाँ", "ठीक", "yes", "ok", "right"]

/-- The `end_phrases` goodbye list of `process_voice`. -/
def end_phrases : List String :=
  ["धन्यवाद", "बाय", "bye", "खत्म", "बस", "हो गया", "रखता हूं", "चलता हूं"]

/-- The system message installed by `get_enhanced_conversation_context`. -/
def system_prompt : String :=
  "आप एक अत्यधिक तेज़ और बुद्धिमान हिंदी AI असिस्टेंट हैं जो INSTANT interruptions को handle करते हैं:\n\nCORE FEATURES:\n1. तत्काल प्रतिक्रिया: 0.5 सेकंड में जवाब दें\n2. बाधा संवेदनशील: अगर user बीच में बोले तो तुरंत रुकें और नया सवाल सुनें\n3. संक्षिप्त उत्तर: केवल 15-25 शब्दों में सटीक जवाब\n4. प्राथमिकता: नया सवाल > पुराना जवाब\n5. स्मार्ट switching: context बदलने पर तुरंत adapt करें\n\nINTERRUPTION HANDLING:\n- अगर user नया सवाल पूछे तो तुरंत उसका जवाब दें\n- पुराना incomplete जवाब भूल जाएं\n- \"हाँ, बताइए\" जैसे quick acknowledgments दें\n\nRESPONSE STYLE:\n- Direct और practical\n- No lengthy explanations\n- Immediate value delivery\n- Natural conversational flow\n\nEXAMPLES:\nUser interrupts: \"रुको, दूसरी बात पूछनी है\"\nResponse: \"जी हाँ, पूछिए।\"\n\nUser asks new question while you\x27re speaking: \nResponse: \"जी, सुन रहा हूं। क्या पूछना है?\"\n\nKeep responses SHORT, FAST, and RELEVANT."

/-- The turn the context is created with. -/
def systemTurn : Turn :=
  { role := "system", content := system_prompt }

/-- A user turn as appended by `generate_ultra_fast_response`. -/
def userTurn (content : String) : Turn :=
  { role := "user", content := content }

/-- An assistant turn as appended by `generate_ultra_fast_response`. -/
def assistantTurn (content : String) : Turn :=
  { role := "assistant", content := content }

/-- `detect_interruption_intent(text, context="")` — the `context`
parameter of the source is never used, so it is dropped here.  Pure. -/
def detect_interruption_intent (text : String) : String :=
  let text_lower := pyStrip (pyLower text)
  if strong_interrupts.any (fun phrase => strContains text_lower phrase) then
    "strong_interrupt"
  else if question_interrupts.any (fun phrase => strContains text_lower phrase) then
    "question_interrupt"
  else if topic_change.any (fun phrase => strContains text_lower phrase) then
    "topic_change"
  else if pyLen text_lower > 10 &&
      !(agreement_words.any (fun word => strContains text_lower word)) then
    "new_input"
  else
    "continue"

/-- `ResponseManager.interrupt_response(caller_id)`: if the manager tracks
an active response for the caller, add its id to `interrupted_responses`. -/
def interrupt_response (caller_id : String) (st : ServerState) : ServerState :=
  match lookup st.rm_active caller_id with
  | some response_id => { st with rm_interrupted := response_id :: st.rm_interrupted }
  | none => st

/-- `get_enhanced_conversation_context(caller_id)`: return the stored
context, creating it (together with a fresh `AdvancedCallState`) when the
caller has none. -/
def get_enhanced_conversation_context (caller_id : String) (st : ServerState) :
    List Turn × ServerState :=
  match lookup st.conversation_contexts caller_id with
  | some messages => (messages, st)
  | none =>
      let messages := [systemTurn]
      (messages,
       { st with
          conversation_contexts := update st.conversation_contexts caller_id messages
          call_states := update st.call_states caller_id (AdvancedCallState.init caller_id) })

/-- The call-state touch at the head of `generate_ultra_fast_response`:
bump the interaction counter and remember the last user input, when the
caller already has a call state. -/
def bump_call_state (prompt caller_id : String) (st : ServerState) : ServerState :=
  match lookup st.call_states caller_id with
  | some call_state =>
      let call_state := { call_state with
        interaction_count := call_state.interaction_count + 1
        last_user_input := prompt }
      { st with call_states := update st.call_states caller_id call_state }
  | none => st

/-- The length guard of `generate_ultra_fast_response`: replies longer
than 150 characters are cut to their first 150 characters plus "...". -/
def truncate_response (response_text : String) : String :=
  if pyLen response_text > 150 then pyTake response_text 150 ++ "..."
  else response_text

/-- The tail of `generate_ultra_fast_response` after the context fetch:
append the user turn to the stored context, consult the Reply Generator
(`none` = the call raised), and on success truncate the stripped reply,
append the assistant turn and return the reply; on failure return the
fixed fallback.  The final `messages = messages[:1] + messages[-10:]` of
the source rebinds the local variable only — the dict entry
`conversation_contexts[caller_id]` keeps the untrimmed list — which is
modelled by the unused `_trimmed` binding. -/
def gen_after_context (llm : Option String) (prompt caller_id : String)
    (messages : List Turn) (st : ServerState) : String × ServerState :=
  let messages := messages ++ [userTurn prompt]
  let st := { st with
    conversation_contexts := update st.conversation_contexts caller_id messages }
  match llm with
  | none => ("समझ गया। कुछ और?", st)
  | some content =>
      let response_text := truncate_response (pyStrip content)
      let messages := messages ++ [assistantTurn response_text]
      let st := { st with
        conversation_contexts := update st.conversation_contexts caller_id messages }
      let _trimmed :=
        if messages.length > 11 then
          messages.take 1 ++ messages.drop (messages.length - 10)
        else messages
      (response_text, st)

/-- `generate_ultra_fast_response(prompt, caller_id)`.  The unused
`max_retries` parameter is dropped.  Returns the spoken text and the new
server state. -/
def generate_ultra_fast_response (hasClient : Bool) (llm : Option String)
    (prompt caller_id : String) (st : ServerState) : String × ServerState :=
  if hasClient = false then ("तकनीकी समस्या है।", st)
  else if prompt = "" ∨ pyLen (pyStrip prompt) < 2 then ("जी, कहिए?", st)
  else
    let st := bump_call_state prompt caller_id st
    let ms := get_enhanced_conversation_context caller_id st
    gen_after_context llm prompt caller_id ms.1 ms.2

/-- The topic reset performed by `generate_interruption_response` on a
`topic_change` classification. -/
def clear_topic (caller_id : String) (st : ServerState) : ServerState :=
  match lookup st.call_states caller_id with
  | some call_state =>
      let call_state := { call_state with conversation_topic := none }
      { st with call_states := update st.call_states caller_id call_state }
  | none => st

/-- `generate_interruption_response(interruption_type, new_input, caller_id)`. -/
def generate_interruption_response (hasClient : Bool) (llm : Option String)
    (interruption_type new_input caller_id : String) (st : ServerState) :
    String × ServerState :=
  if interruption_type = "strong_interrupt" then
    ("जी हाँ, बोलिए।", st)
  else if interruption_type = "question_interrupt" then
    generate_ultra_fast_response hasClient llm new_input caller_id st
  else if interruption_type = "topic_change" then
    ("जी, नया सवाल पूछिए।", clear_topic caller_id st)
  else if interruption_type = "new_input" then
    generate_ultra_fast_response hasClient llm new_input caller_id st
  else
    ("जी, सुन रहा हूं।", st)

/-- The confidence acceptance threshold: the float literal `0.3` of
`confidence < 0.3` as a rational. -/
def conf_threshold : ℚ := mkRat 3 10

/-- The low-confidence / empty-utterance branch of `process_voice`:
increment the silence counter when the caller has a state, hang up at two
consecutive misses, ask to repeat otherwise. -/
def handle_low_confidence (caller_id : String) (st : ServerState) :
    Directive × ServerState :=
  match lookup st.call_states caller_id with
  | none => (Directive.repeatPrompt, st)
  | some call_state =>
      let call_state := { call_state with silence_count := call_state.silence_count + 1 }
      let st := { st with call_states := update st.call_states caller_id call_state }
      if 2 ≤ call_state.silence_count then (Directive.hangupSilence, st)
      else (Directive.repeatPrompt, st)

/-- The silence-counter reset of `process_voice` on an accepted utterance. -/
def reset_silence (caller_id : String) (st : ServerState) : ServerState :=
  match lookup st.call_states caller_id with
  | some call_state =>
      let call_state := { call_state with silence_count := 0 }
      { st with call_states := update st.call_states caller_id call_state }
  | none => st

/-- The interruption bookkeeping of `process_voice`: when the bot was
speaking, bump the interruption counter, set the interrupted flag and mark
the tracked active response superseded.  The speaking flag and the current
response id are left as they are. -/
def handle_interruption (caller_id : String) (st : ServerState) : ServerState :=
  match lookup st.call_states caller_id with
  | some call_state =>
      if call_state.is_bot_speaking then
        let call_state := { call_state with
          interruption_count := call_state.interruption_count + 1
          mid_response_interrupted := true }
        let st := { st with call_states := update st.call_states caller_id call_state }
        if call_state.current_response_id.isSome then interrupt_response caller_id st
        else st
      else st
  | none => st

/-- The session cleanup on goodbye: delete both caller-keyed dict entries. -/
def cleanup_session (caller_id : String) (st : ServerState) : ServerState :=
  { st with
      conversation_contexts := removeKey st.conversation_contexts caller_id
      call_states := removeKey st.call_states caller_id }

/-- The dispatch of `process_voice`: the four interruption classifications
go through `generate_interruption_response`, everything else (the
`continue` label) straight to `generate_ultra_fast_response`. -/
def dispatch_response (hasClient : Bool) (llm : Option String)
    (interruption_type speech_text caller_id : String) (st : ServerState) :
    String × ServerState :=
  if interruption_type = "strong_interrupt" ∨ interruption_type = "question_interrupt"
      ∨ interruption_type = "topic_change" ∨ interruption_type = "new_input" then
    generate_interruption_response hasClient llm interruption_type speech_text caller_id st
  else
    generate_ultra_fast_response hasClient llm speech_text caller_id st

/-- The `/process_voice` request handler body (the happy path of the
outer `try`): one inbound utterance for one caller.  `speechResult` is the
raw `SpeechResult` form field (stripped on entry as in the source),
`confidence` the parsed `Confidence` field. -/
def process_voice (hasClient : Bool) (llm : Option String)
    (speechResult : String) (confidence : ℚ) (caller_id : String)
    (st : ServerState) : Directive × ServerState :=
  let speech_text := pyStrip speechResult
  if confidence < conf_threshold ∨ speech_text = "" then
    handle_low_confidence caller_id st
  else
    let st := reset_silence caller_id st
    let st := handle_interruption caller_id st
    let interruption_type := detect_interruption_intent speech_text
    if end_phrases.any (fun phrase => strContains (pyLower speech_text) phrase) then
      (Directive.hangupGoodbye, cleanup_session caller_id st)
    else
      let (ai_response, st) :=
        dispatch_response hasClient llm interruption_type speech_text caller_id st
      (Directive.speakAndListen ai_response, st)

/-! Association-list facts. -/

theorem lookup_update_self {α : Type} (l : List (String × α)) (k : String) (v : α) :
    lookup (update l k v) k = some v := by
  induction l with
  | nil => simp [update, lookup]
  | cons p t ih =>
      obtain ⟨a, b⟩ := p
      by_cases ha : a = k
      · simp [update, ha, lookup]
      · simp [update, ha, lookup, ih]

theorem lookup_update_ne {α : Type} (l : List (String × α)) {k k' : String} (v : α)
    (h : k' ≠ k) : lookup (update l k v) k' = lookup l k' := by
  induction l with
  | nil => simp [update, lookup, Ne.symm h]
  | cons p t ih =>
      obtain ⟨a, b⟩ := p
      by_cases ha : a = k
      · simp [update, ha, lookup, Ne.symm h]
      · simp [update, ha, lookup, ih]

theorem lookup_removeKey {α : Type} (l : List (String × α)) (k k' : String) :
    lookup (removeKey l k) k' = if k' = k then none else lookup l k' := by
  induction l with
  | nil => simp [removeKey, lookup]
  | cons p t ih =>
      obtain ⟨a, b⟩ := p
      rw [removeKey]
      by_cases ha : a = k
      · rw [if_pos ha, ih]
        by_cases hk : k' = k
        · simp [hk]
        · have hak : ¬ a = k' := fun hh => hk (hh ▸ ha)
          simp [hk, lookup, hak]
      · rw [if_neg ha, lookup, ih]
        by_cases hk : k' = k
        · subst hk
          simp [ha]
        · simp [hk, lookup]

theorem lookup_removeKey_self {α : Type} (l : List (String × α)) (k : String) :
    lookup (removeKey l k) k = none := by
  simp [lookup_removeKey]

/-! Effects of the small state-machine blocks. -/

theorem get_enhanced_some (c : String) (st : ServerState) (m : List Turn)
    (h : lookup st.conversation_contexts c = some m) :
    get_enhanced_conversation_context c st = (m, st) := by
  unfold get_enhanced_conversation_context
  rw [h]

theorem get_enhanced_none (c : String) (st : ServerState)
    (h : lookup st.conversation_contexts c = none) :
    get_enhanced_conversation_context c st =
      ([systemTurn],
       { st with
          conversation_contexts := update st.conversation_contexts c [systemTurn]
          call_states := update st.call_states c (AdvancedCallState.init c) }) := by
  unfold get_enhanced_conversation_context
  rw [h]

theorem reset_silence_contexts (c : String) (st : ServerState) :
    (reset_silence c st).conversation_contexts = st.conversation_contexts := by
  unfold reset_silence
  cases h : lookup st.call_states c <;> rfl

theorem reset_silence_rm_active (c : String) (st : ServerState) :
    (reset_silence c st).rm_active = st.rm_active := by
  unfold reset_silence
  cases h : lookup st.call_states c <;> rfl

theorem reset_silence_rm_interrupted (c : String) (st : ServerState) :
    (reset_silence c st).rm_interrupted = st.rm_interrupted := by
  unfold reset_silence
  cases h : lookup st.call_states c <;> rfl

theorem reset_silence_cs (c : String) (st : ServerState) :
    lookup (reset_silence c st).call_states c =
      (lookup st.call_states c).map (fun cs => { cs with silence_count := 0 }) := by
  unfold reset_silence
  cases h : lookup st.call_states c with
  | none => simp [h]
  | some cs => simp [h, lookup_update_self]

theorem interrupt_response_contexts (c : String) (st : ServerState) :
    (interrupt_response c st).conversation_contexts = st.conversation_contexts := by
  unfold interrupt_response
  cases h : lookup st.rm_active c <;> rfl

theorem interrupt_response_call_states (c : String) (st : ServerState) :
    (interrupt_response c st).call_states = st.call_states := by
  unfold interrupt_response
  cases h : lookup st.rm_active c <;> rfl

theorem handle_interruption_contexts (c : String) (st : ServerState) :
    (handle_interruption c st).conversation_contexts = st.conversation_contexts := by
  unfold handle_interruption
  cases h : lookup st.call_states c with
  | none => rfl
  | some cs =>
      by_cases hs : cs.is_bot_speaking
      · by_cases hr : cs.current_response_id.isSome
        · simp [h, hs, hr, interrupt_response_contexts]
        · simp [h, hs, hr]
      · simp [h, hs]

theorem handle_interruption_cs (c : String) (st : ServerState) :
    lookup (handle_interruption c st).call_states c =
      (lookup st.call_states c).map (fun cs =>
        if cs.is_bot_speaking then
          { cs with
              interruption_count := cs.interruption_count + 1
              mid_response_interrupted := true }
        else cs) := by
  unfold handle_interruption
  cases h : lookup st.call_states c with
  | none => simp [h]
  | some cs =>
      by_cases hs : cs.is_bot_speaking
      · by_cases hr : cs.current_response_id.isSome <;>
          simp [hs, hr, interrupt_response_call_states, lookup_update_self]
      · simp [h, hs]

theorem handle_interruption_mem (c r : String) (st : ServerState)
    (cs : AdvancedCallState)
    (hcs : lookup st.call_states c = some cs)
    (hs : cs.is_bot_speaking = true)
    (hrid : cs.current_response_id.isSome = true)
    (hr : lookup st.rm_active c = some r) :
    r ∈ (handle_interruption c st).rm_interrupted := by
  unfold handle_interruption interrupt_response
  simp [hcs, hs, hrid, hr]

theorem bump_contexts (p c : String) (st : ServerState) :
    (bump_call_state p c st).conversation_contexts = st.conversation_contexts := by
  unfold bump_call_state
  cases h : lookup st.call_states c <;> rfl

theorem bump_rm_active (p c : String) (st : ServerState) :
    (bump_call_state p c st).rm_active = st.rm_active := by
  unfold bump_call_state
  cases h : lookup st.call_states c <;> rfl

theorem bump_rm_interrupted (p c : String) (st : ServerState) :
    (bump_call_state p c st).rm_interrupted = st.rm_interrupted := by
  unfold bump_call_state
  cases h : lookup st.call_states c <;> rfl

theorem bump_cs (p c : String) (st : ServerState) :
    lookup (bump_call_state p c st).call_states c =
      (lookup st.call_states c).map (fun cs =>
        { cs with
            interaction_count := cs.interaction_count + 1
            last_user_input := p }) := by
  unfold bump_call_state
  cases h : lookup st.call_states c with
  | none => simp [h]
  | some cs => simp [h, lookup_update_self]

theorem clear_topic_contexts (c : String) (st : ServerState) :
    (clear_topic c st).conversation_contexts = st.conversation_contexts := by
  unfold clear_topic
  cases h : lookup st.call_states c <;> rfl

theorem clear_topic_rm_active (c : String) (st : ServerState) :
    (clear_topic c st).rm_active = st.rm_active := by
  unfold clear_topic
  cases h : lookup st.call_states c <;> rfl

theorem clear_topic_rm_interrupted (c : String) (st : ServerState) :
    (clear_topic c st).rm_interrupted = st.rm_interrupted := by
  unfold clear_topic
  cases h : lookup st.call_states c <;> rfl

theorem clear_topic_cs (c : String) (st : ServerState) :
    lookup (clear_topic c st).call_states c =
      (lookup st.call_states c).map (fun cs => { cs with conversation_topic := none }) := by
  unfold clear_topic
  cases h : lookup st.call_states c with
  | none => simp [h]
  | some cs => simp [h, lookup_update_self]

/-! Facts about the Reply Generator wrapper. -/

/-- Replace the stored conversation contexts, leaving the rest alone
(notational helper for stating equations). -/
def setContexts (st : ServerState) (l : List (String × List Turn)) : ServerState :=
  { st with conversation_contexts := l }

theorem generate_eq (hc : Bool) (llm : Option String) (p c : String) (st : ServerState)
    (h1 : ¬ hc = false) (h2 : ¬(p = "" ∨ pyLen (pyStrip p) < 2)) :
    generate_ultra_fast_response hc llm p c st =
      gen_after_context llm p c
        (get_enhanced_conversation_context c (bump_call_state p c st)).1
        (get_enhanced_conversation_context c (bump_call_state p c st)).2 := by
  unfold generate_ultra_fast_response
  rw [if_neg h1, if_neg h2]

theorem gen_after_none (p c : String) (m : List Turn) (st : ServerState) :
    gen_after_context none p c m st =
      ("समझ गया। कुछ और?",
       setContexts st (update st.conversation_contexts c (m ++ [userTurn p]))) := rfl

theorem gen_after_some (content p c : String) (m : List Turn) (st : ServerState) :
    gen_after_context (some content) p c m st =
      (truncate_response (pyStrip content),
       setContexts st
         (update (update st.conversation_contexts c (m ++ [userTurn p])) c
           ((m ++ [userTurn p]) ++ [assistantTurn (truncate_response (pyStrip content))]))) := rfl

theorem generate_rm (hc : Bool) (llm : Option String) (p c : String) (st : ServerState) :
    (generate_ultra_fast_response hc llm p c st).2.rm_active = st.rm_active ∧
    (generate_ultra_fast_response hc llm p c st).2.rm_interrupted = st.rm_interrupted := by
  by_cases h1 : hc = false
  · unfold generate_ultra_fast_response
    rw [if_pos h1]
    exact ⟨rfl, rfl⟩
  by_cases h2 : p = "" ∨ pyLen (pyStrip p) < 2
  · unfold generate_ultra_fast_response
    rw [if_neg h1, if_pos h2]
    exact ⟨rfl, rfl⟩
  rw [generate_eq hc llm p c st h1 h2]
  cases hctx : lookup (bump_call_state p c st).conversation_contexts c with
  | some m =>
      rw [get_enhanced_some c _ m hctx]
      cases llm with
      | none =>
          rw [gen_after_none]
          exact ⟨bump_rm_active p c st, bump_rm_interrupted p c st⟩
      | some content =>
          rw [gen_after_some]
          exact ⟨bump_rm_active p c st, bump_rm_interrupted p c st⟩
  | none =>
      rw [get_enhanced_none c _ hctx]
      cases llm with
      | none =>
          rw [gen_after_none]
          exact ⟨bump_rm_active p c st, bump_rm_interrupted p c st⟩
      | some content =>
          rw [gen_after_some]
          exact ⟨bump_rm_active p c st, bump_rm_interrupted p c st⟩

theorem generate_cs_ctx (hc : Bool) (llm : Option String) (p c : String)
    (st : ServerState) (cs : AdvancedCallState)
    (hctx : lookup st.conversation_contexts c ≠ none)
    (hcs : lookup st.call_states c = some cs) :
    ∃ cs', lookup (generate_ultra_fast_response hc llm p c st).2.call_states c = some cs' ∧
      cs'.is_bot_speaking = cs.is_bot_speaking ∧
      cs'.interruption_count = cs.interruption_count ∧
      cs'.silence_count = cs.silence_count ∧
      cs'.current_response_id = cs.current_response_id := by
  by_cases h1 : hc = false
  · unfold generate_ultra_fast_response
    rw [if_pos h1]
    exact ⟨cs, hcs, rfl, rfl, rfl, rfl⟩
  by_cases h2 : p = "" ∨ pyLen (pyStrip p) < 2
  · unfold generate_ultra_fast_response
    rw [if_neg h1, if_pos h2]
    exact ⟨cs, hcs, rfl, rfl, rfl, rfl⟩
  rw [generate_eq hc llm p c st h1 h2]
  obtain ⟨m, hm⟩ := Option.ne_none_iff_exists'.mp hctx
  have hm' : lookup (bump_call_state p c st).conversation_contexts c = some m := by
    rw [bump_contexts]
    exact hm
  rw [get_enhanced_some c _ m hm']
  have hbcs : lookup (bump_call_state p c st).call_states c =
      some { cs with
        interaction_count := cs.interaction_count + 1
        last_user_input := p } := by
    rw [bump_cs, hcs]
    rfl
  cases llm with
  | none =>
      rw [gen_after_none]
      exact ⟨_, hbcs, rfl, rfl, rfl, rfl⟩
  | some content =>
      rw [gen_after_some]
      exact ⟨_, hbcs, rfl, rfl, rfl, rfl⟩

theorem generate_cs_silence (hc : Bool) (llm : Option String) (p c : String)
    (st : ServerState) (cs : AdvancedCallState)
    (hcs : lookup st.call_states c = some cs) :
    ∃ cs', lookup (generate_ultra_fast_response hc llm p c st).2.call_states c = some cs' ∧
      (cs'.silence_count = cs.silence_count ∨ cs'.silence_count = 0) := by
  by_cases h1 : hc = false
  · unfold generate_ultra_fast_response
    rw [if_pos h1]
    exact ⟨cs, hcs, Or.inl rfl⟩
  by_cases h2 : p = "" ∨ pyLen (pyStrip p) < 2
  · unfold generate_ultra_fast_response
    rw [if_neg h1, if_pos h2]
    exact ⟨cs, hcs, Or.inl rfl⟩
  rw [generate_eq hc llm p c st h1 h2]
  have hbcs : lookup (bump_call_state p c st).call_states c =
      some { cs with
        interaction_count := cs.interaction_count + 1
        last_user_input := p } := by
    rw [bump_cs, hcs]
    rfl
  cases hctx : lookup (bump_call_state p c st).conversation_contexts c with
  | some m =>
      rw [get_enhanced_some c _ m hctx]
      cases llm with
      | none =>
          rw [gen_after_none]
          exact ⟨_, hbcs, Or.inl rfl⟩
      | some content =>
          rw [gen_after_some]
          exact ⟨_, hbcs, Or.inl rfl⟩
  | none =>
      rw [get_enhanced_none c _ hctx]
      cases llm with
      | none =>
          rw [gen_after_none]
          exact ⟨AdvancedCallState.init c, lookup_update_self _ c _, Or.inr rfl⟩
      | some content =>
          rw [gen_after_some]
          exact ⟨AdvancedCallState.init c, lookup_update_self _ c _, Or.inr rfl⟩

theorem generate_fail (hc : Bool) (p c : String) (st : ServerState) :
    ((generate_ultra_fast_response hc none p c st).1 = "तकनीकी समस्या है।" ∨
     (generate_ultra_fast_response hc none p c st).1 = "जी, कहिए?" ∨
     (generate_ultra_fast_response hc none p c st).1 = "समझ गया। कुछ और?") ∧
    (lookup (generate_ultra_fast_response hc none p c st).2.conversation_contexts c =
       lookup st.conversation_contexts c ∨
     lookup (generate_ultra_fast_response hc none p c st).2.conversation_contexts c =
       some (((lookup st.conversation_contexts c).getD [systemTurn]) ++ [userTurn p])) := by
  by_cases h1 : hc = false
  · unfold generate_ultra_fast_response
    rw [if_pos h1]
    exact ⟨Or.inl rfl, Or.inl rfl⟩
  by_cases h2 : p = "" ∨ pyLen (pyStrip p) < 2
  · unfold generate_ultra_fast_response
    rw [if_neg h1, if_pos h2]
    exact ⟨Or.inr (Or.inl rfl), Or.inl rfl⟩
  rw [generate_eq hc none p c st h1 h2]
  cases hctx : lookup (bump_call_state p c st).conversation_contexts c with
  | some m =>
      rw [get_enhanced_some c _ m hctx]
      rw [gen_after_none]
      refine ⟨Or.inr (Or.inr rfl), Or.inr ?_⟩
      have hm : lookup st.conversation_contexts c = some m := by
        rw [← bump_contexts p c st]
        exact hctx
      rw [hm]
      exact lookup_update_self _ c _
  | none =>
      rw [get_enhanced_none c _ hctx]
      rw [gen_after_none]
      refine ⟨Or.inr (Or.inr rfl), Or.inr ?_⟩
      have hm : lookup st.conversation_contexts c = none := by
        rw [← bump_contexts p c st]
        exact hctx
      rw [hm]
      exact lookup_update_self _ c _

/-! Facts about the dispatch and the request-handler skeleton. -/

/-- Replace the stored call states, leaving the rest alone (notational
helper for stating equations). -/
def setCallStates (st : ServerState) (l : List (String × AdvancedCallState)) :
    ServerState :=
  { st with call_states := l }

theorem dispatch_strong (hc : Bool) (llm : Option String) (t c : String)
    (st : ServerState) :
    dispatch_response hc llm "strong_interrupt" t c st = ("जी हाँ, बोलिए।", st) := by
  unfold dispatch_response
  rw [if_pos (Or.inl rfl)]
  unfold generate_interruption_response
  rw [if_pos rfl]

theorem dispatch_question (hc : Bool) (llm : Option String) (t c : String)
    (st : ServerState) :
    dispatch_response hc llm "question_interrupt" t c st =
      generate_ultra_fast_response hc llm t c st := by
  unfold dispatch_response
  rw [if_pos (Or.inr (Or.inl rfl))]
  unfold generate_interruption_response
  rw [if_neg (by decide), if_pos rfl]

theorem dispatch_topic (hc : Bool) (llm : Option String) (t c : String)
    (st : ServerState) :
    dispatch_response hc llm "topic_change" t c st =
      ("जी, नया सवाल पूछिए।", clear_topic c st) := by
  unfold dispatch_response
  rw [if_pos (Or.inr (Or.inr (Or.inl rfl)))]
  unfold generate_interruption_response
  rw [if_neg (by decide), if_neg (by decide), if_pos rfl]

theorem dispatch_new (hc : Bool) (llm : Option String) (t c : String)
    (st : ServerState) :
    dispatch_response hc llm "new_input" t c st =
      generate_ultra_fast_response hc llm t c st := by
  unfold dispatch_response
  rw [if_pos (Or.inr (Or.inr (Or.inr rfl)))]
  unfold generate_interruption_response
  rw [if_neg (by decide), if_neg (by decide), if_neg (by decide), if_pos rfl]

theorem dispatch_continue (hc : Bool) (llm : Option String) (t c : String)
    (st : ServerState) :
    dispatch_response hc llm "continue" t c st =
      generate_ultra_fast_response hc llm t c st := by
  unfold dispatch_response
  rw [if_neg (by decide)]

theorem detect_cases (t : String) :
    detect_interruption_intent t = "strong_interrupt" ∨
    detect_interruption_intent t = "question_interrupt" ∨
    detect_interruption_intent t = "topic_change" ∨
    detect_interruption_intent t = "new_input" ∨
    detect_interruption_intent t = "continue" := by
  simp only [detect_interruption_intent]
  split_ifs <;> simp

theorem handle_low_none (c : String) (st : ServerState)
    (hcs : lookup st.call_states c = none) :
    handle_low_confidence c st = (Directive.repeatPrompt, st) := by
  unfold handle_low_confidence
  rw [hcs]

theorem handle_low_some (c : String) (st : ServerState) (cs : AdvancedCallState)
    (hcs : lookup st.call_states c = some cs) :
    handle_low_confidence c st =
      if 2 ≤ cs.silence_count + 1 then
        (Directive.hangupSilence,
         setCallStates st (update st.call_states c ({ cs with silence_count := cs.silence_count + 1 })))
      else
        (Directive.repeatPrompt,
         setCallStates st (update st.call_states c ({ cs with silence_count := cs.silence_count + 1 }))) := by
  unfold handle_low_confidence
  rw [hcs]
  rfl

theorem process_voice_low (hc : Bool) (llm : Option String) (u : String)
    (conf : ℚ) (c : String) (st : ServerState)
    (he : conf < conf_threshold ∨ pyStrip u = "") :
    process_voice hc llm u conf c st = handle_low_confidence c st := by
  simp only [process_voice]
  rw [if_pos he]

theorem process_voice_goodbye (hc : Bool) (llm : Option String) (u : String)
    (conf : ℚ) (c : String) (st : ServerState)
    (hacc : ¬(conf < conf_threshold ∨ pyStrip u = ""))
    (hbye : end_phrases.any (fun phrase => strContains (pyLower (pyStrip u)) phrase) = true) :
    process_voice hc llm u conf c st =
      (Directive.hangupGoodbye,
       cleanup_session c (handle_interruption c (reset_silence c st))) := by
  simp only [process_voice]
  rw [if_neg hacc, if_pos hbye]

theorem process_voice_accepted (hc : Bool) (llm : Option String) (u : String)
    (conf : ℚ) (c : String) (st : ServerState)
    (hacc : ¬(conf < conf_threshold ∨ pyStrip u = ""))
    (hbye : end_phrases.any (fun phrase => strContains (pyLower (pyStrip u)) phrase) = false) :
    process_voice hc llm u conf c st =
      (Directive.speakAndListen
         (dispatch_response hc llm (detect_interruption_intent (pyStrip u)) (pyStrip u) c
           (handle_interruption c (reset_silence c st))).1,
       (dispatch_response hc llm (detect_interruption_intent (pyStrip u)) (pyStrip u) c
         (handle_interruption c (reset_silence c st))).2) := by
  simp only [process_voice]
  rw [if_neg hacc, if_neg (by simp [hbye])]

/-! The claims. -/

/-- Claim C1, evaluated at a failing input: the stored per-caller context
is NOT capped at 11 entries.  After six successful non-empty turns of a
fresh caller, the list stored in `conversation_contexts` holds 13 entries
(1 system turn + 6 user/assistant pairs), exceeding the cap of 11 that
the trimming step `messages[:1] + messages[-10:]` was meant to enforce —
that trim rebinds a local variable and is never written back to the
dict, so the stored memory grows without bound and nothing is evicted. -/
theorem claim_C1_failing_eval :
    (lookup ((fun st => (process_voice true (some "ठीक") "hello hello hello" (1:ℚ) "c" st).2)^[6]
        ServerState.empty).conversation_contexts "c").map List.length = some 13 ∧
    ¬ (13 ≤ 11) :=
  ⟨by decide, by decide⟩

/-- Claim C9: a caller without call state never accumulates a silence
streak: any empty or low-confidence utterance leaves the whole server
state unchanged and yields the repeat prompt, hence arbitrarily many
consecutive such utterances all yield repeat prompts and never a
termination directive. -/
theorem claim_C9 (hasClient : Bool) (llm : Option String) (u : String)
    (conf : ℚ) (c : String) (st : ServerState)
    (hcs : lookup st.call_states c = none)
    (he : conf < conf_threshold ∨ pyStrip u = "") :
    process_voice hasClient llm u conf c st = (Directive.repeatPrompt, st) ∧
    ∀ n : Nat,
      ((fun s => (process_voice hasClient llm u conf c s).2)^[n]) st = st := by
  have h1 : process_voice hasClient llm u conf c st = (Directive.repeatPrompt, st) := by
    rw [process_voice_low hasClient llm u conf c st he]
    exact handle_low_none c st hcs
  refine ⟨h1, ?_⟩
  have h2 : (process_voice hasClient llm u conf c st).2 = st := by
    simp [h1]
  intro n
  induction n with
  | zero => rfl
  | succ k ih => rw [Function.iterate_succ_apply, h2, ih]

/-- Witness for claim C9: the very first utterance of an unknown caller
is empty, and the repeat prompt is produced with the state unchanged. -/
theorem claim_C9_witness :
    process_voice true none "" (0:ℚ) "c" ServerState.empty =
      (Directive.repeatPrompt, ServerState.empty) ∧
    ∀ n : Nat,
      ((fun s => (process_voice true none "" (0:ℚ) "c" s).2)^[n]) ServerState.empty =
        ServerState.empty :=
  claim_C9 true none "" 0 "c" ServerState.empty (by decide) (Or.inr (by decide))

/-- Claim C4: an accepted utterance containing a goodbye phrase produces
the goodbye hangup and removes both the call state and the conversation
context of the caller; the next context fetch for the same caller then
builds a brand-new session: a context holding only the system turn and a
fresh call state with turn counter 0, silence streak 0, neutral
sentiment, no topic and the speaking flag off. -/
theorem claim_C4 (hasClient : Bool) (llm : Option String) (u : String)
    (conf : ℚ) (c : String) (st : ServerState)
    (hacc : ¬(conf < conf_threshold ∨ pyStrip u = ""))
    (hbye : end_phrases.any (fun phrase => strContains (pyLower (pyStrip u)) phrase) = true) :
    (process_voice hasClient llm u conf c st).1 = Directive.hangupGoodbye ∧
    lookup (process_voice hasClient llm u conf c st).2.conversation_contexts c = none ∧
    lookup (process_voice hasClient llm u conf c st).2.call_states c = none ∧
    (get_enhanced_conversation_context c (process_voice hasClient llm u conf c st).2).1 =
      [systemTurn] ∧
    lookup (get_enhanced_conversation_context c
      (process_voice hasClient llm u conf c st).2).2.conversation_contexts c =
        some [systemTurn] ∧
    lookup (get_enhanced_conversation_context c
      (process_voice hasClient llm u conf c st).2).2.call_states c =
        some (AdvancedCallState.init c) ∧
    (AdvancedCallState.init c).interaction_count = 0 ∧
    (AdvancedCallState.init c).silence_count = 0 ∧
    (AdvancedCallState.init c).user_sentiment = "neutral" ∧
    (AdvancedCallState.init c).conversation_topic = none ∧
    (AdvancedCallState.init c).is_bot_speaking = false := by
  have hpv := process_voice_goodbye hasClient llm u conf c st hacc hbye
  rw [hpv]
  have hctx : lookup (cleanup_session c
      (handle_interruption c (reset_silence c st))).conversation_contexts c = none := by
    unfold cleanup_session
    exact lookup_removeKey_self _ c
  have hcall : lookup (cleanup_session c
      (handle_interruption c (reset_silence c st))).call_states c = none := by
    unfold cleanup_session
    exact lookup_removeKey_self _ c
  have hg := get_enhanced_none c
    (cleanup_session c (handle_interruption c (reset_silence c st))) hctx
  refine ⟨rfl, hctx, hcall, ?_, ?_, ?_, rfl, rfl, rfl, rfl, rfl⟩
  · show (get_enhanced_conversation_context c
      (cleanup_session c (handle_interruption c (reset_silence c st)))).1 = [systemTurn]
    rw [hg]
  · show lookup (get_enhanced_conversation_context c
      (cleanup_session c (handle_interruption c (reset_silence c st)))).2.conversation_contexts c =
        some [systemTurn]
    rw [hg]
    exact lookup_update_self _ c _
  · show lookup (get_enhanced_conversation_context c
      (cleanup_session c (handle_interruption c (reset_silence c st)))).2.call_states c =
        some (AdvancedCallState.init c)
    rw [hg]
    exact lookup_update_self _ c _

/-- Witness for claim C4: the goodbye "धन्यवाद बाय" at confidence 1 from a
caller with no prior state hangs up and leaves no stored session. -/
theorem claim_C4_witness :
    (process_voice true none "धन्यवाद बाय" (1:ℚ) "c" ServerState.empty).1 =
      Directive.hangupGoodbye ∧
    lookup (process_voice true none "धन्यवाद बाय" (1:ℚ) "c"
      ServerState.empty).2.conversation_contexts "c" = none ∧
    lookup (process_voice true none "धन्यवाद बाय" (1:ℚ) "c"
      ServerState.empty).2.call_states "c" = none :=
  ⟨(claim_C4 true none "धन्यवाद बाय" 1 "c" ServerState.empty (by decide) (by decide)).1,
   (claim_C4 true none "धन्यवाद बाय" 1 "c" ServerState.empty (by decide) (by decide)).2.1,
   (claim_C4 true none "धन्यवाद बाय" 1 "c" ServerState.empty (by decide) (by decide)).2.2.1⟩

/-- A server holding one caller "c" with a fresh session (a concrete test
state). -/
def oneCallerState : ServerState :=
  { conversation_contexts := [("c", [systemTurn])]
    call_states := [("c", AdvancedCallState.init "c")]
    rm_active := []
    rm_interrupted := [] }

/-- Counterexample to claim C3: with an existing fresh call state, the
SECOND consecutive empty utterance already terminates the call (the
threshold in the code is 2), instead of yielding a second repeat-prompt
with the termination only on the third. -/
theorem claim_C3_counterexample :
    (process_voice true none "" (0:ℚ) "c" oneCallerState).1 = Directive.repeatPrompt ∧
    ((lookup (process_voice true none "" (0:ℚ) "c" oneCallerState).2.call_states "c").map
      (fun s => s.silence_count)) = some 1 ∧
    (process_voice true none "" (0:ℚ) "c"
        (process_voice true none "" (0:ℚ) "c" oneCallerState).2).1 =
      Directive.hangupSilence ∧
    ((lookup (process_voice true none "" (0:ℚ) "c"
        (process_voice true none "" (0:ℚ) "c" oneCallerState).2).2.call_states "c").map
      (fun s => s.silence_count)) = some 2 ∧
    (process_voice true none "" (0:ℚ) "c"
        (process_voice true none "" (0:ℚ) "c" oneCallerState).2).1 ≠
      Directive.repeatPrompt := by
  decide

/-- Claim C3 as amended: for a caller with existing call state, each
empty / low-confidence utterance increments the silence streak by exactly
1 and terminates as soon as the new streak reaches 2 (else repeat
prompt); any accepted non-goodbye utterance resets the streak to 0; so
TWO consecutive empty utterances yield a repeat-prompt (streak 1) and
then a termination (streak 2) — reaching the threshold never yields a
repeat-prompt. -/
theorem claim_C3_amended :
    (∀ (hasClient : Bool) (llm : Option String) (u : String) (conf : ℚ) (c : String)
        (st : ServerState) (cs : AdvancedCallState),
      lookup st.call_states c = some cs →
      (conf < conf_threshold ∨ pyStrip u = "") →
      lookup (process_voice hasClient llm u conf c st).2.call_states c =
        some { cs with silence_count := cs.silence_count + 1 } ∧
      (process_voice hasClient llm u conf c st).1 =
        (if 2 ≤ cs.silence_count + 1 then Directive.hangupSilence
         else Directive.repeatPrompt)) ∧
    (∀ (hasClient : Bool) (llm : Option String) (u : String) (conf : ℚ) (c : String)
        (st : ServerState) (cs : AdvancedCallState),
      lookup st.call_states c = some cs →
      ¬(conf < conf_threshold ∨ pyStrip u = "") →
      end_phrases.any (fun phrase => strContains (pyLower (pyStrip u)) phrase) = false →
      ∃ cs', lookup (process_voice hasClient llm u conf c st).2.call_states c = some cs' ∧
        cs'.silence_count = 0) ∧
    ((process_voice true none "" (0:ℚ) "c" oneCallerState).1 = Directive.repeatPrompt ∧
     (process_voice true none "" (0:ℚ) "c"
        (process_voice true none "" (0:ℚ) "c" oneCallerState).2).1 =
       Directive.hangupSilence) := by
  refine ⟨?_, ?_, by decide⟩
  · intro hasClient llm u conf c st cs hcs he
    rw [process_voice_low hasClient llm u conf c st he, handle_low_some c st cs hcs]
    constructor
    · by_cases hth : 2 ≤ cs.silence_count + 1
      · rw [if_pos hth]
        exact lookup_update_self _ c _
      · rw [if_neg hth]
        exact lookup_update_self _ c _
    · by_cases hth : 2 ≤ cs.silence_count + 1
      · rw [if_pos hth, if_pos hth]
      · rw [if_neg hth, if_neg hth]
  · intro hasClient llm u conf c st cs hcs hacc hbye
    rw [process_voice_accepted hasClient llm u conf c st hacc hbye]
    have h1 : lookup (reset_silence c st).call_states c =
        some { cs with silence_count := 0 } := by
      rw [reset_silence_cs, hcs]
      rfl
    have h2 : ∃ cs1, lookup (handle_interruption c (reset_silence c st)).call_states c =
        some cs1 ∧ cs1.silence_count = 0 := by
      rw [handle_interruption_cs, h1, Option.map_some']
      refine ⟨_, rfl, ?_⟩
      by_cases hb : ({ cs with silence_count := 0 } : AdvancedCallState).is_bot_speaking
      · rw [if_pos hb]
      · rw [if_neg hb]
    obtain ⟨cs1, hcs1, hsil1⟩ := h2
    rcases detect_cases (pyStrip u) with h | h | h | h | h
    all_goals rw [h]
    · rw [dispatch_strong]
      exact ⟨cs1, hcs1, hsil1⟩
    · rw [dispatch_question]
      obtain ⟨cs', hcs', hor⟩ :=
        generate_cs_silence hasClient llm (pyStrip u) c
          (handle_interruption c (reset_silence c st)) cs1 hcs1
      refine ⟨cs', hcs', ?_⟩
      rcases hor with h' | h'
      · rw [h', hsil1]
      · exact h'
    · rw [dispatch_topic]
      have hct : lookup (clear_topic c
          (handle_interruption c (reset_silence c st))).call_states c =
          some ({ cs1 with conversation_topic := none }) := by
        rw [clear_topic_cs, hcs1, Option.map_some']
      exact ⟨{ cs1 with conversation_topic := none }, hct, hsil1⟩
    · rw [dispatch_new]
      obtain ⟨cs', hcs', hor⟩ :=
        generate_cs_silence hasClient llm (pyStrip u) c
          (handle_interruption c (reset_silence c st)) cs1 hcs1
      refine ⟨cs', hcs', ?_⟩
      rcases hor with h' | h'
      · rw [h', hsil1]
      · exact h'
    · rw [dispatch_continue]
      obtain ⟨cs', hcs', hor⟩ :=
        generate_cs_silence hasClient llm (pyStrip u) c
          (handle_interruption c (reset_silence c st)) cs1 hcs1
      refine ⟨cs', hcs', ?_⟩
      rcases hor with h' | h'
      · rw [h', hsil1]
      · exact h'

/-- Witness for the amended claim C3: the first empty utterance of the
one-caller test state bumps the streak to 1 and asks to repeat. -/
theorem claim_C3_witness :
    lookup (process_voice true none "" (0:ℚ) "c" oneCallerState).2.call_states "c" =
      some { AdvancedCallState.init "c" with
        silence_count := (AdvancedCallState.init "c").silence_count + 1 } ∧
    (process_voice true none "" (0:ℚ) "c" oneCallerState).1 =
      (if 2 ≤ (AdvancedCallState.init "c").silence_count + 1 then Directive.hangupSilence
       else Directive.repeatPrompt) :=
  claim_C3_amended.1 true none "" 0 "c" oneCallerState (AdvancedCallState.init "c")
    (by decide) (Or.inr (by decide))

/-- A call state in the middle of delivering response "R1". -/
def deliveringCS : AdvancedCallState :=
  { AdvancedCallState.init "c" with
      is_bot_speaking := true
      current_response_id := some "R1" }

/-- A server whose single caller "c" is currently being spoken to;
response "R1" is tracked as active by the response manager. -/
def deliveringState : ServerState :=
  { conversation_contexts := [("c", [systemTurn])]
    call_states := [("c", deliveringCS)]
    rm_active := [("c", "R1")]
    rm_interrupted := [] }

/-- Counterexample to claim C2: a non-empty accepted utterance arriving
while the bot is DELIVERING response "R1" does NOT return the state to
IDLE before dispatch — after processing, the speaking flag is still set
and the current response id is still "R1" (the handler never clears
them). -/
theorem claim_C2_counterexample :
    ((lookup (process_voice true (some "ठीक") "hello hello hello" (1:ℚ) "c"
        deliveringState).2.call_states "c").map (fun s => s.is_bot_speaking)) = some true ∧
    ((lookup (process_voice true (some "ठीक") "hello hello hello" (1:ℚ) "c"
        deliveringState).2.call_states "c").map (fun s => s.current_response_id)) =
      some (some "R1") ∧
    "R1" ∈ (process_voice true (some "ठीक") "hello hello hello" (1:ℚ) "c"
        deliveringState).2.rm_interrupted := by
  decide

/-- Claim C2 as amended: when a non-empty accepted non-goodbye utterance
arrives while the caller's state is DELIVERING response R (speaking flag
set, current response id R, R tracked as active), R is marked superseded
and the interruption counter increments by exactly 1 before the utterance
is dispatched, but the speaking flag and the current response id are left
set: the state does NOT return to IDLE. -/
theorem claim_C2_amended (hasClient : Bool) (llm : Option String) (u : String)
    (conf : ℚ) (c r : String) (st : ServerState) (cs : AdvancedCallState)
    (hacc : ¬(conf < conf_threshold ∨ pyStrip u = ""))
    (hbye : end_phrases.any (fun phrase => strContains (pyLower (pyStrip u)) phrase) = false)
    (hcs : lookup st.call_states c = some cs)
    (hspeak : cs.is_bot_speaking = true)
    (hrid : cs.current_response_id.isSome = true)
    (hr : lookup st.rm_active c = some r)
    (hctx : lookup st.conversation_contexts c ≠ none) :
    r ∈ (process_voice hasClient llm u conf c st).2.rm_interrupted ∧
    ∃ cs', lookup (process_voice hasClient llm u conf c st).2.call_states c = some cs' ∧
      cs'.interruption_count = cs.interruption_count + 1 ∧
      cs'.is_bot_speaking = true ∧
      cs'.current_response_id = cs.current_response_id := by
  rw [process_voice_accepted hasClient llm u conf c st hacc hbye]
  have h1 : lookup (reset_silence c st).call_states c =
      some ({ cs with silence_count := 0 }) := by
    rw [reset_silence_cs, hcs, Option.map_some']
  have hmem : r ∈ (handle_interruption c (reset_silence c st)).rm_interrupted :=
    handle_interruption_mem c r (reset_silence c st) { cs with silence_count := 0 } h1
      hspeak hrid (by rw [reset_silence_rm_active]; exact hr)
  have h2 : lookup (handle_interruption c (reset_silence c st)).call_states c =
      some ({ cs with
        silence_count := 0
        interruption_count := cs.interruption_count + 1
        mid_response_interrupted := true }) := by
    rw [handle_interruption_cs, h1, Option.map_some',
      if_pos (hspeak : ({ cs with silence_count := 0 } : AdvancedCallState).is_bot_speaking = true)]
  have hctx2 : lookup
      (handle_interruption c (reset_silence c st)).conversation_contexts c ≠ none := by
    rw [handle_interruption_contexts, reset_silence_contexts]
    exact hctx
  rcases detect_cases (pyStrip u) with h | h | h | h | h
  all_goals rw [h]
  · rw [dispatch_strong]
    exact ⟨hmem, _, h2, rfl, hspeak, rfl⟩
  · rw [dispatch_question]
    obtain ⟨cs', hcs', hsp, hic, hsil, hrid'⟩ :=
      generate_cs_ctx hasClient llm (pyStrip u) c
        (handle_interruption c (reset_silence c st)) _ hctx2 h2
    refine ⟨?_, cs', hcs', ?_, ?_, ?_⟩
    · show r ∈ (generate_ultra_fast_response hasClient llm (pyStrip u) c
        (handle_interruption c (reset_silence c st))).2.rm_interrupted
      rw [(generate_rm hasClient llm (pyStrip u) c
        (handle_interruption c (reset_silence c st))).2]
      exact hmem
    · rw [hic]
    · rw [hsp]
      exact hspeak
    · rw [hrid']
  · rw [dispatch_topic]
    have hct : lookup (clear_topic c
        (handle_interruption c (reset_silence c st))).call_states c =
        some ({ cs with
          silence_count := 0
          interruption_count := cs.interruption_count + 1
          mid_response_interrupted := true
          conversation_topic := none }) := by
      rw [clear_topic_cs, h2, Option.map_some']
    refine ⟨?_, _, hct, rfl, hspeak, rfl⟩
    show r ∈ (clear_topic c (handle_interruption c (reset_silence c st))).rm_interrupted
    rw [clear_topic_rm_interrupted]
    exact hmem
  · rw [dispatch_new]
    obtain ⟨cs', hcs', hsp, hic, hsil, hrid'⟩ :=
      generate_cs_ctx hasClient llm (pyStrip u) c
        (handle_interruption c (reset_silence c st)) _ hctx2 h2
    refine ⟨?_, cs', hcs', ?_, ?_, ?_⟩
    · show r ∈ (generate_ultra_fast_response hasClient llm (pyStrip u) c
        (handle_interruption c (reset_silence c st))).2.rm_interrupted
      rw [(generate_rm hasClient llm (pyStrip u) c
        (handle_interruption c (reset_silence c st))).2]
      exact hmem
    · rw [hic]
    · rw [hsp]
      exact hspeak
    · rw [hrid']
  · rw [dispatch_continue]
    obtain ⟨cs', hcs', hsp, hic, hsil, hrid'⟩ :=
      generate_cs_ctx hasClient llm (pyStrip u) c
        (handle_interruption c (reset_silence c st)) _ hctx2 h2
    refine ⟨?_, cs', hcs', ?_, ?_, ?_⟩
    · show r ∈ (generate_ultra_fast_response hasClient llm (pyStrip u) c
        (handle_interruption c (reset_silence c st))).2.rm_interrupted
      rw [(generate_rm hasClient llm (pyStrip u) c
        (handle_interruption c (reset_silence c st))).2]
      exact hmem
    · rw [hic]
    · rw [hsp]
      exact hspeak
    · rw [hrid']

/-- Witness for the amended claim C2: the interruption "hello hello
hello" during delivery of "R1" supersedes "R1" and bumps the counter,
while the speaking flag stays on. -/
theorem claim_C2_witness :
    "R1" ∈ (process_voice true (some "ठीक") "hello hello hello" (1:ℚ) "c"
        deliveringState).2.rm_interrupted ∧
    ∃ cs', lookup (process_voice true (some "ठीक") "hello hello hello" (1:ℚ) "c"
        deliveringState).2.call_states "c" = some cs' ∧
      cs'.interruption_count = deliveringCS.interruption_count + 1 ∧
      cs'.is_bot_speaking = true ∧
      cs'.current_response_id = deliveringCS.current_response_id :=
  claim_C2_amended true (some "ठीक") "hello hello hello" 1 "c" "R1" deliveringState
    deliveringCS (by decide) (by decide) (by decide) (by decide) (by decide)
    (by decide) (by decide)

/-- Counterexample to claim C6: for the strong-interrupt utterance
"रुको, दूसरी बात" the emitted acknowledgment is the string
"जी हाँ, बोलिए।" — with a trailing danda — which is not the string
"जी हाँ, बोलिए" stated by the claim. -/
theorem claim_C6_counterexample :
    (process_voice true (some "ठीक") "रुको, दूसरी बात" (1:ℚ) "c" deliveringState).1 =
      Directive.speakAndListen "जी हाँ, बोलिए।" ∧
    (process_voice true (some "ठीक") "रुको, दूसरी बात" (1:ℚ) "c" deliveringState).1 ≠
      Directive.speakAndListen "जी हाँ, बोलिए" := by
  decide

/-- Claim C6 as amended: a non-goodbye accepted utterance classified
strong-interrupt yields the fixed acknowledgment "जी हाँ, बोलिए।" (with
trailing danda), leaves the stored conversation contexts entirely
unchanged, leaves the caller's turn counter unchanged, and the outcome
does not depend on the Reply Generator at all. -/
theorem claim_C6_amended (hasClient hasClient' : Bool) (llm llm' : Option String)
    (u : String) (conf : ℚ) (c : String) (st : ServerState)
    (hacc : ¬(conf < conf_threshold ∨ pyStrip u = ""))
    (hbye : end_phrases.any (fun phrase => strContains (pyLower (pyStrip u)) phrase) = false)
    (hstrong : detect_interruption_intent (pyStrip u) = "strong_interrupt") :
    (process_voice hasClient llm u conf c st).1 =
      Directive.speakAndListen "जी हाँ, बोलिए।" ∧
    (process_voice hasClient llm u conf c st).2.conversation_contexts =
      st.conversation_contexts ∧
    ((lookup (process_voice hasClient llm u conf c st).2.call_states c).map
      (fun s => s.interaction_count)) =
      ((lookup st.call_states c).map (fun s => s.interaction_count)) ∧
    process_voice hasClient llm u conf c st = process_voice hasClient' llm' u conf c st := by
  rw [process_voice_accepted hasClient llm u conf c st hacc hbye,
      process_voice_accepted hasClient' llm' u conf c st hacc hbye, hstrong,
      dispatch_strong hasClient llm (pyStrip u) c _,
      dispatch_strong hasClient' llm' (pyStrip u) c _]
  refine ⟨rfl, ?_, ?_, rfl⟩
  · show (handle_interruption c (reset_silence c st)).conversation_contexts =
      st.conversation_contexts
    rw [handle_interruption_contexts, reset_silence_contexts]
  · show ((lookup (handle_interruption c (reset_silence c st)).call_states c).map
      (fun s => s.interaction_count)) = _
    rw [handle_interruption_cs, reset_silence_cs]
    cases hcs : lookup st.call_states c with
    | none => rfl
    | some cs =>
        simp only [Option.map_some']
        by_cases hb : ({ cs with silence_count := 0 } : AdvancedCallState).is_bot_speaking
        · rw [if_pos hb]
        · rw [if_neg hb]

/-- Witness for the amended claim C6: the strong interrupt
"रुको, दूसरी बात" spoken over the delivering bot. -/
theorem claim_C6_witness :
    (process_voice true (some "ठीक") "रुको, दूसरी बात" (1:ℚ) "c" deliveringState).1 =
      Directive.speakAndListen "जी हाँ, बोलिए।" ∧
    (process_voice true (some "ठीक") "रुको, दूसरी बात" (1:ℚ) "c"
      deliveringState).2.conversation_contexts = deliveringState.conversation_contexts :=
  ⟨(claim_C6_amended true true (some "ठीक") (some "ठीक") "रुको, दूसरी बात" 1 "c"
      deliveringState (by decide) (by decide) (by decide)).1,
   (claim_C6_amended true true (some "ठीक") (some "ठीक") "रुको, दूसरी बात" 1 "c"
      deliveringState (by decide) (by decide) (by decide)).2.1⟩

/-- A call state with a topic already set and five completed turns. -/
def topicCS : AdvancedCallState :=
  { AdvancedCallState.init "c" with
      conversation_topic := some "jobs"
      interaction_count := 5 }

/-- A server whose single caller "c" has a stored topic and history. -/
def topicState : ServerState :=
  { conversation_contexts := [("c", [systemTurn])]
    call_states := [("c", topicCS)]
    rm_active := []
    rm_interrupted := [] }

set_option maxRecDepth 16384 in
/-- Counterexample to claim C7: on the topic-change utterance
"दूसरा सवाल" the dispatch does NOT append the user's utterance to the
conversation memory, does NOT invoke the Reply Generator, and does NOT
increment the turn counter — it returns the fixed prompt
"जी, नया सवाल पूछिए।" with the memory unchanged and the counter still 5. -/
theorem claim_C7_counterexample :
    (process_voice true (some "ठीक") "दूसरा सवाल" (1:ℚ) "c"
        topicState).2.conversation_contexts = topicState.conversation_contexts ∧
    ((lookup (process_voice true (some "ठीक") "दूसरा सवाल" (1:ℚ) "c"
        topicState).2.call_states "c").map (fun s => s.interaction_count)) = some 5 ∧
    (process_voice true (some "ठीक") "दूसरा सवाल" (1:ℚ) "c" topicState).1 =
      Directive.speakAndListen "जी, नया सवाल पूछिए।" := by
  decide

/-- Claim C7 as amended: a non-goodbye accepted utterance classified
topic-change clears the stored topic, but then returns the fixed prompt
"जी, नया सवाल पूछिए।" WITHOUT invoking the Reply Generator, without
appending anything to the conversation memory and without incrementing
the turn counter. -/
theorem claim_C7_amended (hasClient hasClient' : Bool) (llm llm' : Option String)
    (u : String) (conf : ℚ) (c : String) (st : ServerState) (cs : AdvancedCallState)
    (hacc : ¬(conf < conf_threshold ∨ pyStrip u = ""))
    (hbye : end_phrases.any (fun phrase => strContains (pyLower (pyStrip u)) phrase) = false)
    (htc : detect_interruption_intent (pyStrip u) = "topic_change")
    (hcs : lookup st.call_states c = some cs) :
    (process_voice hasClient llm u conf c st).1 =
      Directive.speakAndListen "जी, नया सवाल पूछिए।" ∧
    (process_voice hasClient llm u conf c st).2.conversation_contexts =
      st.conversation_contexts ∧
    (∃ cs', lookup (process_voice hasClient llm u conf c st).2.call_states c = some cs' ∧
      cs'.conversation_topic = none ∧
      cs'.interaction_count = cs.interaction_count) ∧
    process_voice hasClient llm u conf c st = process_voice hasClient' llm' u conf c st := by
  rw [process_voice_accepted hasClient llm u conf c st hacc hbye,
      process_voice_accepted hasClient' llm' u conf c st hacc hbye, htc,
      dispatch_topic hasClient llm (pyStrip u) c _,
      dispatch_topic hasClient' llm' (pyStrip u) c _]
  refine ⟨rfl, ?_, ?_, rfl⟩
  · show (clear_topic c (handle_interruption c (reset_silence c st))).conversation_contexts =
      st.conversation_contexts
    rw [clear_topic_contexts, handle_interruption_contexts, reset_silence_contexts]
  · show ∃ cs', lookup (clear_topic c
      (handle_interruption c (reset_silence c st))).call_states c = some cs' ∧
      cs'.conversation_topic = none ∧ cs'.interaction_count = cs.interaction_count
    rw [clear_topic_cs, handle_interruption_cs, reset_silence_cs, hcs]
    simp only [Option.map_some']
    by_cases hb : ({ cs with silence_count := 0 } : AdvancedCallState).is_bot_speaking
    · rw [if_pos hb]
      exact ⟨_, rfl, rfl, rfl⟩
    · rw [if_neg hb]
      exact ⟨_, rfl, rfl, rfl⟩

/-- Witness for the amended claim C7: "दूसरा सवाल" from the caller with a
stored topic clears the topic and leaves counter and memory alone. -/
theorem claim_C7_witness :
    (process_voice true (some "ठीक") "दूसरा सवाल" (1:ℚ) "c" topicState).1 =
      Directive.speakAndListen "जी, नया सवाल पूछिए।" ∧
    (∃ cs', lookup (process_voice true (some "ठीक") "दूसरा सवाल" (1:ℚ) "c"
        topicState).2.call_states "c" = some cs' ∧
      cs'.conversation_topic = none ∧
      cs'.interaction_count = topicCS.interaction_count) :=
  ⟨(claim_C7_amended true true (some "ठीक") (some "ठीक") "दूसरा सवाल" 1 "c" topicState
      topicCS (by decide) (by decide) (by decide) (by decide)).1,
   (claim_C7_amended true true (some "ठीक") (some "ठीक") "दूसरा सवाल" 1 "c" topicState
      topicCS (by decide) (by decide) (by decide) (by decide)).2.2.1⟩

/-- When the chat-completion call (or the extraction of its message
content) raises, any accepted non-goodbye utterance still produces a
non-empty spoken reply — one of the deterministic fallback strings — and
the stored conversation memory is left either unchanged or with only the
user turn appended (no assistant turn). -/
theorem generator_raises_fallback (hasClient : Bool) (u : String) (conf : ℚ) (c : String)
    (st : ServerState)
    (hacc : ¬(conf < conf_threshold ∨ pyStrip u = ""))
    (hbye : end_phrases.any (fun phrase => strContains (pyLower (pyStrip u)) phrase) = false) :
    ∃ out, (process_voice hasClient none u conf c st).1 = Directive.speakAndListen out ∧
      out ≠ "" ∧
      (lookup (process_voice hasClient none u conf c st).2.conversation_contexts c =
         lookup st.conversation_contexts c ∨
       lookup (process_voice hasClient none u conf c st).2.conversation_contexts c =
         some (((lookup st.conversation_contexts c).getD [systemTurn]) ++
           [userTurn (pyStrip u)])) := by
  rw [process_voice_accepted hasClient none u conf c st hacc hbye]
  have hpre : (handle_interruption c (reset_silence c st)).conversation_contexts =
      st.conversation_contexts := by
    rw [handle_interruption_contexts, reset_silence_contexts]
  rcases detect_cases (pyStrip u) with h | h | h | h | h
  all_goals rw [h]
  · rw [dispatch_strong]
    refine ⟨"जी हाँ, बोलिए।", rfl, by decide, Or.inl ?_⟩
    show lookup (handle_interruption c (reset_silence c st)).conversation_contexts c = _
    rw [hpre]
  · rw [dispatch_question]
    obtain ⟨hout, hctx⟩ := generate_fail hasClient (pyStrip u) c
      (handle_interruption c (reset_silence c st))
    refine ⟨(generate_ultra_fast_response hasClient none (pyStrip u) c
      (handle_interruption c (reset_silence c st))).1, rfl, ?_, ?_⟩
    · rcases hout with h' | h' | h' <;> rw [h'] <;> decide
    · rcases hctx with h' | h'
      · left
        show lookup (generate_ultra_fast_response hasClient none (pyStrip u) c
          (handle_interruption c (reset_silence c st))).2.conversation_contexts c = _
        rw [h', hpre]
      · right
        show lookup (generate_ultra_fast_response hasClient none (pyStrip u) c
          (handle_interruption c (reset_silence c st))).2.conversation_contexts c = _
        rw [h', hpre]
  · rw [dispatch_topic]
    refine ⟨"जी, नया सवाल पूछिए।", rfl, by decide, Or.inl ?_⟩
    show lookup (clear_topic c
      (handle_interruption c (reset_silence c st))).conversation_contexts c = _
    rw [clear_topic_contexts, hpre]
  · rw [dispatch_new]
    obtain ⟨hout, hctx⟩ := generate_fail hasClient (pyStrip u) c
      (handle_interruption c (reset_silence c st))
    refine ⟨(generate_ultra_fast_response hasClient none (pyStrip u) c
      (handle_interruption c (reset_silence c st))).1, rfl, ?_, ?_⟩
    · rcases hout with h' | h' | h' <;> rw [h'] <;> decide
    · rcases hctx with h' | h'
      · left
        show lookup (generate_ultra_fast_response hasClient none (pyStrip u) c
          (handle_interruption c (reset_silence c st))).2.conversation_contexts c = _
        rw [h', hpre]
      · right
        show lookup (generate_ultra_fast_response hasClient none (pyStrip u) c
          (handle_interruption c (reset_silence c st))).2.conversation_contexts c = _
        rw [h', hpre]
  · rw [dispatch_continue]
    obtain ⟨hout, hctx⟩ := generate_fail hasClient (pyStrip u) c
      (handle_interruption c (reset_silence c st))
    refine ⟨(generate_ultra_fast_response hasClient none (pyStrip u) c
      (handle_interruption c (reset_silence c st))).1, rfl, ?_, ?_⟩
    · rcases hout with h' | h' | h' <;> rw [h'] <;> decide
    · rcases hctx with h' | h'
      · left
        show lookup (generate_ultra_fast_response hasClient none (pyStrip u) c
          (handle_interruption c (reset_silence c st))).2.conversation_contexts c = _
        rw [h', hpre]
      · right
        show lookup (generate_ultra_fast_response hasClient none (pyStrip u) c
          (handle_interruption c (reset_silence c st))).2.conversation_contexts c = _
        rw [h', hpre]

set_option maxRecDepth 16384 in
/-- Counterexample to claim C5: when the Reply Generator returns
successfully but with EMPTY text (the "unusable output" / "empty result"
failure mode), no fallback is substituted: for "नौकरी नहीं मिल रही" with
generator output "" the handler speaks the empty string — not a non-empty
fallback — and appends an assistant turn with empty content to the stored
memory. -/
theorem claim_C5_counterexample :
    (process_voice true (some "") "नौकरी नहीं मिल रही" (1:ℚ) "c" oneCallerState).1 =
      Directive.speakAndListen "" ∧
    lookup (process_voice true (some "") "नौकरी नहीं मिल रही" (1:ℚ) "c"
        oneCallerState).2.conversation_contexts "c" =
      some [systemTurn, userTurn "नौकरी नहीं मिल रही", assistantTurn ""] := by
  decide

/-- Claim C5 as amended: if the Reply Generator RAISES (error, timeout,
or output so unusable that extracting it raises), processing of an
accepted non-goodbye utterance still returns a non-empty deterministic
fallback utterance, never an error, and the stored memory is left either
unchanged or with only the user turn appended; but a generator call that
returns successfully with empty text gets no fallback: the empty reply is
spoken as-is and an assistant turn with empty content is appended. -/
theorem claim_C5_amended :
    (∀ (hasClient : Bool) (u : String) (conf : ℚ) (c : String) (st : ServerState),
      ¬(conf < conf_threshold ∨ pyStrip u = "") →
      end_phrases.any (fun phrase => strContains (pyLower (pyStrip u)) phrase) = false →
      ∃ out, (process_voice hasClient none u conf c st).1 = Directive.speakAndListen out ∧
        out ≠ "" ∧
        (lookup (process_voice hasClient none u conf c st).2.conversation_contexts c =
           lookup st.conversation_contexts c ∨
         lookup (process_voice hasClient none u conf c st).2.conversation_contexts c =
           some (((lookup st.conversation_contexts c).getD [systemTurn]) ++
             [userTurn (pyStrip u)]))) ∧
    ((process_voice true (some "") "नौकरी नहीं मिल रही" (1:ℚ) "c" oneCallerState).1 =
       Directive.speakAndListen "" ∧
     (lookup (process_voice true (some "") "नौकरी नहीं मिल रही" (1:ℚ) "c"
        oneCallerState).2.conversation_contexts "c").map
          (fun m => m.map (fun t => t.role)) =
       some ["system", "user", "assistant"] ∧
     (lookup (process_voice true (some "") "नौकरी नहीं मिल रही" (1:ℚ) "c"
        oneCallerState).2.conversation_contexts "c").map
          (fun m => m.map (fun t => pyLen t.content) |>.getLast?) =
       some (some 0)) := by
  refine ⟨?_, by decide⟩
  intro hasClient u conf c st hacc hbye
  exact generator_raises_fallback hasClient u conf c st hacc hbye

/-- Witness for the amended claim C5: the generator raises on
"नौकरी नहीं मिल रही"; a non-empty fallback is spoken and the stored
memory gains at most the user turn. -/
theorem claim_C5_witness :
    ∃ out, (process_voice true none "नौकरी नहीं मिल रही" (1:ℚ) "c" oneCallerState).1 =
      Directive.speakAndListen out ∧
      out ≠ "" ∧
      (lookup (process_voice true none "नौकरी नहीं मिल रही" (1:ℚ) "c"
          oneCallerState).2.conversation_contexts "c" =
        lookup oneCallerState.conversation_contexts "c" ∨
       lookup (process_voice true none "नौकरी नहीं मिल रही" (1:ℚ) "c"
          oneCallerState).2.conversation_contexts "c" =
        some (((lookup oneCallerState.conversation_contexts "c").getD [systemTurn]) ++
          [userTurn (pyStrip "नौकरी नहीं मिल रही")])) :=
  claim_C5_amended.1 true "नौकरी नहीं मिल रही" 1 "c" oneCallerState
    (by decide) (by decide)

/-- Length of a take plus the three-dot marker. -/
theorem pyLen_truncate_le (s : String) : pyLen (truncate_response s) ≤ 153 := by
  unfold truncate_response
  by_cases h : pyLen s > 150
  · rw [if_pos h]
    have he : pyLen (pyTake s 150 ++ "...") =
        (s.toList.take 150).length + "...".toList.length := by
      show ((s.toList.take 150) ++ "...".toList).length = _
      rw [List.length_append]
    have h3 : "...".toList.length = 3 := by decide
    have h2 : (s.toList.take 150).length ≤ 150 := by
      rw [List.length_take]
      exact Nat.min_le_left _ _
    rw [he, h3]
    omega
  · rw [if_neg h]
    omega

/-- Claim C10: on a successful generation the spoken and stored assistant
reply is the truncation of the stripped generator output: at most 153
characters, and exactly the first 150 characters plus "..." whenever the
stripped output exceeds 150 characters; the stored assistant turn holds
exactly this reply. -/
theorem claim_C10 (content p c : String) (st : ServerState)
    (hp : ¬(p = "" ∨ pyLen (pyStrip p) < 2)) :
    pyLen (generate_ultra_fast_response true (some content) p c st).1 ≤ 153 ∧
    (pyLen (pyStrip content) > 150 →
      (generate_ultra_fast_response true (some content) p c st).1 =
        pyTake (pyStrip content) 150 ++ "...") ∧
    ∃ pre, lookup (generate_ultra_fast_response true
        (some content) p c st).2.conversation_contexts c =
      some (pre ++ [assistantTurn
        (generate_ultra_fast_response true (some content) p c st).1]) := by
  have h1 : ¬ (true : Bool) = false := by decide
  rw [generate_eq true (some content) p c st h1 hp]
  cases hctx : lookup (bump_call_state p c st).conversation_contexts c with
  | some m =>
      rw [get_enhanced_some c _ m hctx, gen_after_some]
      refine ⟨pyLen_truncate_le (pyStrip content), ?_, m ++ [userTurn p], ?_⟩
      · intro hlong
        show truncate_response (pyStrip content) = pyTake (pyStrip content) 150 ++ "..."
        unfold truncate_response
        rw [if_pos hlong]
      · exact lookup_update_self _ c _
  | none =>
      rw [get_enhanced_none c _ hctx, gen_after_some]
      refine ⟨pyLen_truncate_le (pyStrip content), ?_, [systemTurn] ++ [userTurn p], ?_⟩
      · intro hlong
        show truncate_response (pyStrip content) = pyTake (pyStrip content) 150 ++ "..."
        unfold truncate_response
        rw [if_pos hlong]
      · exact lookup_update_self _ c _

/-- Witness for claim C10 at a short generator reply. -/
theorem claim_C10_witness :
    pyLen (generate_ultra_fast_response true (some "ठीक है") "hello hello" "c"
      ServerState.empty).1 ≤ 153 ∧
    (pyLen (pyStrip "ठीक है") > 150 →
      (generate_ultra_fast_response true (some "ठीक है") "hello hello" "c"
        ServerState.empty).1 = pyTake (pyStrip "ठीक है") 150 ++ "...") ∧
    ∃ pre, lookup (generate_ultra_fast_response true
        (some "ठीक है") "hello hello" "c" ServerState.empty).2.conversation_contexts "c" =
      some (pre ++ [assistantTurn
        (generate_ultra_fast_response true (some "ठीक है") "hello hello" "c"
          ServerState.empty).1]) :=
  claim_C10 "ठीक है" "hello hello" "c" ServerState.empty (by decide)

/-- Well-formed per-caller memory: the system turn sits at index 0 and no
other stored turn carries the system role — i.e. exactly one system turn,
always first. -/
def goodMem (msgs : List Turn) : Prop :=
  ∃ rest, msgs = systemTurn :: rest ∧ ∀ t ∈ rest, t.role ≠ "system"

/-- Every context stored on the server is well formed. -/
def MemInv (st : ServerState) : Prop :=
  ∀ c msgs, lookup st.conversation_contexts c = some msgs → goodMem msgs

theorem goodMem_init : goodMem [systemTurn] :=
  ⟨[], rfl, by simp⟩

theorem goodMem_append (m : List Turn) (t : Turn) (h : goodMem m)
    (ht : t.role ≠ "system") : goodMem (m ++ [t]) := by
  obtain ⟨rest, hm, hr⟩ := h
  refine ⟨rest ++ [t], by rw [hm]; rfl, ?_⟩
  intro x hx
  rcases List.mem_append.mp hx with h' | h'
  · exact hr x h'
  · rw [List.mem_singleton.mp h']
    exact ht

theorem userTurn_role (p : String) : (userTurn p).role ≠ "system" :=
  fun h => absurd h (show ¬("user" = "system") by decide)

theorem assistantTurn_role (s : String) : (assistantTurn s).role ≠ "system" :=
  fun h => absurd h (show ¬("assistant" = "system") by decide)

theorem memInv_update (l : List (String × List Turn)) (c : String) (m : List Turn)
    (h : ∀ c' m', lookup l c' = some m' → goodMem m')
    (hg : goodMem m) :
    ∀ c' m', lookup (update l c m) c' = some m' → goodMem m' := by
  intro c' m' h'
  by_cases hc : c' = c
  · subst hc
    rw [lookup_update_self] at h'
    injection h' with h2
    rw [← h2]
    exact hg
  · rw [lookup_update_ne l m hc] at h'
    exact h _ _ h'

theorem memInv_remove (l : List (String × List Turn)) (c : String)
    (h : ∀ c' m', lookup l c' = some m' → goodMem m') :
    ∀ c' m', lookup (removeKey l c) c' = some m' → goodMem m' := by
  intro c' m' h'
  rw [lookup_removeKey] at h'
  by_cases hc : c' = c
  · rw [if_pos hc] at h'
    exact Option.noConfusion h'
  · rw [if_neg hc] at h'
    exact h _ _ h'

theorem MemInv_of_eq_contexts (st st' : ServerState)
    (h : st'.conversation_contexts = st.conversation_contexts)
    (hi : MemInv st) : MemInv st' := by
  intro c m hm
  rw [h] at hm
  exact hi c m hm

theorem generate_MemInv (hc : Bool) (llm : Option String) (p c : String)
    (st : ServerState) (hi : MemInv st) :
    MemInv (generate_ultra_fast_response hc llm p c st).2 := by
  by_cases h1 : hc = false
  · unfold generate_ultra_fast_response
    rw [if_pos h1]
    exact hi
  by_cases h2 : p = "" ∨ pyLen (pyStrip p) < 2
  · unfold generate_ultra_fast_response
    rw [if_neg h1, if_pos h2]
    exact hi
  rw [generate_eq hc llm p c st h1 h2]
  have hbump : MemInv (bump_call_state p c st) :=
    MemInv_of_eq_contexts st _ (bump_contexts p c st) hi
  cases hctx : lookup (bump_call_state p c st).conversation_contexts c with
  | some m =>
      have hgm : goodMem m := hbump c m hctx
      rw [get_enhanced_some c _ m hctx]
      cases llm with
      | none =>
          rw [gen_after_none]
          intro c' m' hm'
          exact memInv_update _ c _ (fun a b hb => hbump a b hb)
            (goodMem_append m (userTurn p) hgm (userTurn_role p)) c' m' hm'
      | some content =>
          rw [gen_after_some]
          intro c' m' hm'
          refine memInv_update _ c _ ?_ ?_ c' m' hm'
          · exact memInv_update _ c _ (fun a b hb => hbump a b hb)
              (goodMem_append m (userTurn p) hgm (userTurn_role p))
          · exact goodMem_append _ _
              (goodMem_append m (userTurn p) hgm (userTurn_role p)) (assistantTurn_role _)
  | none =>
      rw [get_enhanced_none c _ hctx]
      cases llm with
      | none =>
          rw [gen_after_none]
          intro c' m' hm'
          refine memInv_update _ c _ ?_ ?_ c' m' hm'
          · exact memInv_update _ c _ (fun a b hb => hbump a b hb) goodMem_init
          · exact goodMem_append _ _ goodMem_init (userTurn_role p)
      | some content =>
          rw [gen_after_some]
          intro c' m' hm'
          refine memInv_update _ c _ ?_ ?_ c' m' hm'
          · refine memInv_update _ c _ ?_ ?_
            · exact memInv_update _ c _ (fun a b hb => hbump a b hb) goodMem_init
            · exact goodMem_append _ _ goodMem_init (userTurn_role p)
          · exact goodMem_append _ _
              (goodMem_append _ _ goodMem_init (userTurn_role p)) (assistantTurn_role _)

theorem dispatch_MemInv (hc : Bool) (llm : Option String) (it t c : String)
    (st : ServerState) (hi : MemInv st) :
    MemInv (dispatch_response hc llm it t c st).2 := by
  unfold dispatch_response
  by_cases hA : it = "strong_interrupt" ∨ it = "question_interrupt"
      ∨ it = "topic_change" ∨ it = "new_input"
  · rw [if_pos hA]
    unfold generate_interruption_response
    by_cases hb1 : it = "strong_interrupt"
    · rw [if_pos hb1]
      exact hi
    rw [if_neg hb1]
    by_cases hb2 : it = "question_interrupt"
    · rw [if_pos hb2]
      exact generate_MemInv hc llm t c st hi
    rw [if_neg hb2]
    by_cases hb3 : it = "topic_change"
    · rw [if_pos hb3]
      exact MemInv_of_eq_contexts st _ (clear_topic_contexts c st) hi
    rw [if_neg hb3]
    by_cases hb4 : it = "new_input"
    · rw [if_pos hb4]
      exact generate_MemInv hc llm t c st hi
    · rw [if_neg hb4]
      exact hi
  · rw [if_neg hA]
    exact generate_MemInv hc llm t c st hi

/-- Claim C8: a context is created holding exactly the system turn, the
empty server trivially satisfies the memory invariant, and one full
processing step for any caller and any inputs preserves it: in every
stored context the system turn is at index 0 and is the only system turn
— it is never evicted or displaced. -/
theorem claim_C8 (hasClient : Bool) (llm : Option String) (u : String)
    (conf : ℚ) (c : String) (st : ServerState) :
    goodMem [systemTurn] ∧
    MemInv ServerState.empty ∧
    (MemInv st → MemInv (process_voice hasClient llm u conf c st).2) := by
  refine ⟨goodMem_init, ?_, ?_⟩
  · intro c' m hm
    exact absurd hm (by simp [ServerState.empty, lookup])
  · intro hi
    by_cases he : conf < conf_threshold ∨ pyStrip u = ""
    · rw [process_voice_low hasClient llm u conf c st he]
      cases hcs : lookup st.call_states c with
      | none =>
          rw [handle_low_none c st hcs]
          exact hi
      | some cs =>
          rw [handle_low_some c st cs hcs]
          by_cases hth : 2 ≤ cs.silence_count + 1
          · rw [if_pos hth]
            exact MemInv_of_eq_contexts st _ rfl hi
          · rw [if_neg hth]
            exact MemInv_of_eq_contexts st _ rfl hi
    · have hst2 : MemInv (handle_interruption c (reset_silence c st)) :=
        MemInv_of_eq_contexts st _
          (by rw [handle_interruption_contexts, reset_silence_contexts]) hi
      by_cases hb : end_phrases.any
          (fun phrase => strContains (pyLower (pyStrip u)) phrase) = true
      · rw [process_voice_goodbye hasClient llm u conf c st he hb]
        intro c' m hm
        exact memInv_remove _ c (fun a b hb' => hst2 a b hb') c' m hm
      · have hb' : end_phrases.any
            (fun phrase => strContains (pyLower (pyStrip u)) phrase) = false := by
          rw [← Bool.not_eq_true]
          exact hb
        rw [process_voice_accepted hasClient llm u conf c st he hb']
        exact dispatch_MemInv hasClient llm
          (detect_interruption_intent (pyStrip u)) (pyStrip u) c
          (handle_interruption c (reset_silence c st)) hst2

/-- Witness for claim C8: one processed turn from the empty server keeps
every stored context well formed. -/
theorem claim_C8_witness :
    goodMem [systemTurn] ∧
    MemInv ServerState.empty ∧
    MemInv (process_voice true (some "ठीक") "hello hello hello" (1:ℚ) "c"
      ServerState.empty).2 :=
  ⟨(claim_C8 true (some "ठीक") "hello hello hello" 1 "c" ServerState.empty).1,
   (claim_C8 true (some "ठीक") "hello hello hello" 1 "c" ServerState.empty).2.1,
   (claim_C8 true (some "ठीक") "hello hello hello" 1 "c" ServerState.empty).2.2
     ((claim_C8 true (some "ठीक") "hello hello hello" 1 "c" ServerState.empty).2.1)⟩

end App

